import Mathlib

/-!
Shallow embedding of the AlicatModbusRTU register driver
(src/AlicatMODBUSRTU.h, src/AlicatMODBUSRTU.cpp).

Modelling conventions:
* C `int` values (addresses, device type, offsets) are `Int`;
  `uint16_t` register values are `Nat`.
* 32-bit IEEE-754 floats are modelled by their 32-bit bit patterns
  (`Nat`), since every claim about them is at the bit level; the gas
  percentages, which the source manipulates numerically, are `Rat`
  (IEEE rounding of the division/multiplication by 100 is not modelled;
  no claim depends on it below the 0.01 tolerance).
* The Modbus transport is a `Bus`: a read oracle that may fail
  (`Option`).  Write results are ignored by the source, so writes do
  not consult the bus.  Every transport interaction is recorded in a
  `List TransportCall` trace returned alongside the functional result.
* A C output pointer `*out` becomes a parameter carrying the location's
  previous contents plus a returned new value; "left unmodified" is
  then "new value = parameter".
* An uninitialized C local that can reach an observable path is made an
  explicit `junk` parameter (its indeterminate initial contents).
-/

namespace AlicatModbusRTU

/-- Device-type tags (AlicatMODBUSRTU.h lines 11-15). -/
def DEVICE_TYPE_MASS_FLOW_CONTROLLER : Int := 0

def DEVICE_TYPE_LIQUID_CONTROLLER : Int := 1

def DEVICE_TYPE_MASS_FLOW_METER : Int := 2

def DEVICE_TYPE_PSID_CONTROLLER : Int := 3

def DEVICE_TYPE_GAUGE_PRESSURE_CONTROLLER : Int := 4

/-- Special-command status codes (AlicatMODBUSRTU.h lines 17-23). -/
def STATUS_CODE_SUCCESS : Nat := 0

def STATUS_CODE_INVALID_COMMAND_ID : Nat := 32769

def STATUS_CODE_INVALID_SETTING : Nat := 32770

def STATUS_CODE_REQUESTED_FEATURE_IS_UNSUPPORTED : Nat := 32771

def STATUS_CODE_INVALID_GAS_MIX_INDEX : Nat := 32772

def STATUS_CODE_INVALID_GAS_MIX_CONSTITUENT : Nat := 32773

def STATUS_CODE_INVALID_GAS_MIX_PERCENTAGE : Nat := 32774

/-- Status-word bit masks (AlicatMODBUSRTU.h lines 25-38). -/
def STATUS_BIT_TEMPERATURE_OVERFLOW : Nat := 0x0001

def STATUS_BIT_TEMPERATURE_UNDERFLOW : Nat := 0x0002

def STATUS_BIT_VOLUMETRIC_OVERFLOW : Nat := 0x0004

def STATUS_BIT_VOLUMETRIC_UNDERFLOW : Nat := 0x0008

def STATUS_BIT_MASS_OVERFLOW : Nat := 0x0010

def STATUS_BIT_MASS_UNDERFLOW : Nat := 0x0020

def STATUS_BIT_PRESSURE_OVERFLOW : Nat := 0x0040

def STATUS_BIT_TOTALIZER_OVERFLOW : Nat := 0x0080

def STATUS_BIT_PID_LOOP_IN_HOLD : Nat := 0x0100

def STATUS_BIT_ADC_ERROR : Nat := 0x0200

def STATUS_BIT_PID_EXHAUST : Nat := 0x0400

def STATUS_BIT_OVER_PRESSURE_LIMIT : Nat := 0x0800

def STATUS_BIT_FLOW_OVERFLOW_DURING_TOTALIZE : Nat := 0x1000

def STATUS_BIT_MEASUREMENT_ABORTED : Nat := 0x2000

/-- Special-command identifiers used by the .cpp (header lines 40-57). -/
def SPECIAL_COMMAND_CHANGE_GAS_NUMBER : Nat := 1

def SPECIAL_COMMAND_CREATE_CUSTOM_GAS_MIXTURE : Nat := 2

def SPECIAL_COMMAND_DELETE_CUSTOM_GAS_MIXTURE : Nat := 3

def SPECIAL_COMMAND_TARE : Nat := 4

def SPECIAL_COMMAND_READ_PID_VALUE : Nat := 14

/-- Register addresses (header lines 59-85). -/
def REGISTER_COMMAND_ID : Int := 1000

def REGISTER_COMMAND_ARGUMENT : Int := 1001

def REGISTER_SETPOINT : Int := 1010

def REGISTER_MIXTURE_GAS_1_INDEX : Int := 1050

/-- The header defines REGISTER_GAS_NUMBER twice (1141 then 1200); the
redefinition at line 82 is the one in effect in the .cpp. -/
def REGISTER_GAS_NUMBER : Int := 1200

def REGISTER_DEVICE_STATUS : Int := 1201

def REGISTER_DEVICE_STATISTIC_1_VALUE : Int := 1203

/-- The driver's per-device state: `_modbusID`, `_deviceType`,
`_registerOffset` (constructor at .cpp lines 12-16; default offset −1). -/
structure Device where
  modbusID : Int
  deviceType : Int
  registerOffset : Int
deriving DecidableEq, Repr

/-- One call into the Modbus transport collaborator, as issued by the
driver: `readHoldingRegisterValues` or `writeHoldingRegisterValues`. -/
inductive TransportCall where
  | read (modbusID : Int) (addr : Int) (count : Nat)
  | write (modbusID : Int) (addr : Int) (values : List Nat)
deriving DecidableEq, Repr

/-- The start address a transport call was issued at. -/
def TransportCall.addr : TransportCall → Int
  | .read _ a _ => a
  | .write _ a _ => a

/-- The transport read oracle: `none` models a failed
`readHoldingRegisterValues` call (it returned false). -/
structure Bus where
  read : Int → Int → Nat → Option (List Nat)

/-- A bus whose registers hold the values of the map `m`; every read
succeeds. -/
def busOfMap (m : Int → Nat) : Bus :=
  ⟨fun _ addr count => some ((List.range count).map (fun i => m (addr + Int.ofNat i)))⟩

/-- A bus on which every read fails. -/
def failBus : Bus := ⟨fun _ _ _ => none⟩

/-- A bus that answers every read with the fixed word list `ws`. -/
def busConst (ws : List Nat) : Bus := ⟨fun _ _ _ => some ws⟩

/-- Effect of one transport call on a register map (reads change
nothing; a write stores its words at consecutive addresses). -/
def applyCall (m : Int → Nat) : TransportCall → (Int → Nat)
  | .read _ _ _ => m
  | .write _ addr values => fun a =>
      if addr ≤ a ∧ a < addr + Int.ofNat values.length then
        values.getD (a - addr).toNat 0
      else m a

/-- Effect of a whole trace of transport calls on a register map. -/
def applyTrace (m : Int → Nat) (calls : List TransportCall) : Int → Nat :=
  calls.foldl applyCall m

/-- offsetRegister (.cpp lines 35-37). -/
def offsetRegister (dev : Device) (address : Int) : Int :=
  address + dev.registerOffset

/-- getDeviceStatisticRegisterAddress (.cpp lines 41-49): the `Int`
result is the contents of the output location `registerAddress` after
the call (unchanged when the index is out of bounds); the trace is
empty because the body issues no transport call. -/
def getDeviceStatisticRegisterAddress (statisticIndex : Int) (registerAddress : Int) :
    Int × List TransportCall :=
  if statisticIndex < 1 || statisticIndex > 20 then
    (registerAddress, [])
  else
    (REGISTER_DEVICE_STATISTIC_1_VALUE + 2 * (statisticIndex - 1), [])

/-- readSingleRegister (.cpp lines 56-68): a 1-register read; on
transport failure the output keeps its previous contents
`registerValue`.  The C body stores `response[0]`. -/
def readSingleRegister (dev : Device) (bus : Bus) (registerAddress : Int)
    (registerValue : Nat) : Nat × List TransportCall :=
  let a := offsetRegister dev registerAddress
  match bus.read dev.modbusID a 1 with
  | none => (registerValue, [.read dev.modbusID a 1])
  | some response => (response.getD 0 0, [.read dev.modbusID a 1])

/-- readRegistersAsFloat (.cpp lines 72-97): a 2-register read;
`response[0]` supplies bits 31:16 of the float pattern and
`response[1]` bits 15:0 (big-endian register order).  On transport
failure the output keeps its previous contents. -/
def readRegistersAsFloat (dev : Device) (bus : Bus) (registerAddress : Int)
    (floatValue : Nat) : Nat × List TransportCall :=
  let a := offsetRegister dev registerAddress
  match bus.read dev.modbusID a 2 with
  | none => (floatValue, [.read dev.modbusID a 2])
  | some response => (response.getD 0 0 * 65536 + response.getD 1 0, [.read dev.modbusID a 2])

/-- writeRegistersAsFloat (.cpp lines 101-117): splits the 32-bit float
pattern into its high half (`data[0]`) and low half (`data[1]`) and
issues one 2-register write. -/
def writeRegistersAsFloat (dev : Device) (registerAddress : Int) (floatValue : Nat) :
    List TransportCall :=
  [.write dev.modbusID (offsetRegister dev registerAddress)
    [floatValue / 65536 % 65536, floatValue % 65536]]

/-- writeSingleRegister (.cpp lines 121-126). -/
def writeSingleRegister (dev : Device) (registerAddress : Int) (registerValue : Nat) :
    List TransportCall :=
  [.write dev.modbusID (offsetRegister dev registerAddress) [registerValue]]

/-- deviceIsMassFlow (.cpp lines 539-541). -/
def deviceIsMassFlow (dev : Device) : Bool :=
  dev.deviceType == DEVICE_TYPE_MASS_FLOW_METER ||
    dev.deviceType == DEVICE_TYPE_MASS_FLOW_CONTROLLER

/-- deviceIsController (.cpp lines 545-547). -/
def deviceIsController (dev : Device) : Bool :=
  dev.deviceType == DEVICE_TYPE_PSID_CONTROLLER ||
    dev.deviceType == DEVICE_TYPE_GAUGE_PRESSURE_CONTROLLER ||
    dev.deviceType == DEVICE_TYPE_MASS_FLOW_CONTROLLER

/-- deviceIsPressureController (.cpp lines 551-553). -/
def deviceIsPressureController (dev : Device) : Bool :=
  dev.deviceType == DEVICE_TYPE_PSID_CONTROLLER ||
    dev.deviceType == DEVICE_TYPE_GAUGE_PRESSURE_CONTROLLER

/-- deviceIsLiquid (.cpp lines 557-559). -/
def deviceIsLiquid (dev : Device) : Bool :=
  dev.deviceType == DEVICE_TYPE_LIQUID_CONTROLLER

/-- Rounding of a non-negative value as C's round() performs it
(half away from zero, which for non-negative arguments is
floor(x + 1/2)); used on `gasPercent * 100`, guarded to [0,100]. -/
def roundHalfUp (q : Rat) : Int :=
  (q + 1 / 2).floor

/-- setSetpoint (.cpp lines 132-140): controllers only. -/
def setSetpoint (dev : Device) (setpoint : Nat) : List TransportCall :=
  if !deviceIsController dev then []
  else writeRegistersAsFloat dev REGISTER_SETPOINT setpoint

/-- getSetpoint (.cpp lines 144-160): controllers only; the local
`registerAddress` starts out indeterminate (`junkAddr`) and is only
assigned in the mass-flow and pressure-controller branches. -/
def getSetpoint (dev : Device) (bus : Bus) (junkAddr : Int) (setPoint : Nat) :
    Nat × List TransportCall :=
  if !deviceIsController dev then (setPoint, [])
  else
    let registerAddress :=
      if deviceIsMassFlow dev then (getDeviceStatisticRegisterAddress 5 junkAddr).1
      else if deviceIsPressureController dev then (getDeviceStatisticRegisterAddress 2 junkAddr).1
      else junkAddr
    readRegistersAsFloat dev bus registerAddress setPoint

/-- getPressure (.cpp lines 164-172): all device types, statistic 1. -/
def getPressure (dev : Device) (bus : Bus) (junkAddr : Int) (pressure : Nat) :
    Nat × List TransportCall :=
  readRegistersAsFloat dev bus (getDeviceStatisticRegisterAddress 1 junkAddr).1 pressure

/-- setMixtureGasProperties (.cpp lines 176-215): mass-flow only;
gas-index register = BASE + 2*(mixtureIndex-1), percent register next;
the percent is written as round(gasPercent * 100).  (`gasIndex` is a
uint16, so the C check `gasIndex < 0` can never fire.) -/
def setMixtureGasProperties (dev : Device) (mixtureIndex : Int) (gasIndex : Nat)
    (gasPercent : Rat) : List TransportCall :=
  if !deviceIsMassFlow dev then []
  else if mixtureIndex < 1 || mixtureIndex > 5 then []
  else if gasIndex > 210 then []
  else if gasPercent < 0 || gasPercent > 100 then []
  else
    let gasIndexRegisterAddress := REGISTER_MIXTURE_GAS_1_INDEX + 2 * (mixtureIndex - 1)
    let gasPercentRegisterAddress := gasIndexRegisterAddress + 1
    writeSingleRegister dev gasIndexRegisterAddress gasIndex ++
      writeSingleRegister dev gasPercentRegisterAddress (roundHalfUp (gasPercent * 100)).toNat

/-- getMixtureGasProperties (.cpp lines 219-244), translated exactly as
written: the gas-index register address is computed as
BASE + (mixtureIndex - 1) — without the factor 2 used by the setter —
and `*gasPercent` is assigned from the local `gasPercentageInt`
(initial indeterminate contents `junkPercentInt`) unconditionally,
even when the transport reads failed.  Result: ((gas-index output,
gas-percent output), trace). -/
def getMixtureGasProperties (dev : Device) (bus : Bus) (mixtureIndex : Int)
    (gasIndex : Nat) (gasPercent : Rat) (junkPercentInt : Nat) :
    (Nat × Rat) × List TransportCall :=
  if !deviceIsMassFlow dev then ((gasIndex, gasPercent), [])
  else if mixtureIndex < 1 || mixtureIndex > 5 then ((gasIndex, gasPercent), [])
  else
    let gasIndexRegisterAddress := REGISTER_MIXTURE_GAS_1_INDEX + (mixtureIndex - 1)
    let gasPercentRegisterAddress := gasIndexRegisterAddress + 1
    let r1 := readSingleRegister dev bus gasIndexRegisterAddress gasIndex
    let r2 := readSingleRegister dev bus gasPercentRegisterAddress junkPercentInt
    ((r1.1, (r2.1 : Rat) / 100), r1.2 ++ r2.2)

/-- setGasNumber (.cpp lines 248-263): mass-flow only, index in [0,210]. -/
def setGasNumber (dev : Device) (gasIndex : Nat) : List TransportCall :=
  if !deviceIsMassFlow dev then []
  else if gasIndex > 210 then []
  else writeSingleRegister dev REGISTER_GAS_NUMBER gasIndex

/-- getGasNumber (.cpp lines 267-275): mass-flow only. -/
def getGasNumber (dev : Device) (bus : Bus) (gasIndex : Nat) : Nat × List TransportCall :=
  if !deviceIsMassFlow dev then (gasIndex, [])
  else readSingleRegister dev bus REGISTER_GAS_NUMBER gasIndex

/-- The driver's `_status` flag record (AlicatMODBUSRTU.h lines 167-183). -/
structure StatusFlags where
  TEMPERATURE_OVERFLOW : Bool
  TEMPERATURE_UNDERFLOW : Bool
  VOLUMETRIC_OVERFLOW : Bool
  VOLUMETRIC_UNDERFLOW : Bool
  MASS_OVERFLOW : Bool
  MASS_UNDERFLOW : Bool
  PRESSURE_OVERFLOW : Bool
  TOTALIZER_OVERFLOW : Bool
  PID_LOOP_IN_HOLD : Bool
  ADC_ERROR : Bool
  PID_EXHAUST : Bool
  OVER_PRESSURE_LIMIT : Bool
  FLOW_OVERFLOW_DURING_TOTALIZE : Bool
  MEASUREMENT_ABORTED : Bool
  ANY_ERROR : Bool
deriving DecidableEq, Repr

/-- getStatusFlags (.cpp lines 279-318): reads the device-status
register (the local `status` starts indeterminate, `junkStatus`, and
keeps that value if the read fails), then sets every flag from an
AND-mask of the word; ANY_ERROR is `status > 0`. -/
def getStatusFlags (dev : Device) (bus : Bus) (junkStatus : Nat) :
    StatusFlags × List TransportCall :=
  let r := readSingleRegister dev bus REGISTER_DEVICE_STATUS junkStatus
  let status := r.1
  ({ TEMPERATURE_OVERFLOW := status.land STATUS_BIT_TEMPERATURE_OVERFLOW != 0
     TEMPERATURE_UNDERFLOW := status.land STATUS_BIT_TEMPERATURE_UNDERFLOW != 0
     VOLUMETRIC_OVERFLOW := status.land STATUS_BIT_VOLUMETRIC_OVERFLOW != 0
     VOLUMETRIC_UNDERFLOW := status.land STATUS_BIT_VOLUMETRIC_UNDERFLOW != 0
     MASS_OVERFLOW := status.land STATUS_BIT_MASS_OVERFLOW != 0
     MASS_UNDERFLOW := status.land STATUS_BIT_MASS_UNDERFLOW != 0
     PRESSURE_OVERFLOW := status.land STATUS_BIT_PRESSURE_OVERFLOW != 0
     TOTALIZER_OVERFLOW := status.land STATUS_BIT_TOTALIZER_OVERFLOW != 0
     PID_LOOP_IN_HOLD := status.land STATUS_BIT_PID_LOOP_IN_HOLD != 0
     ADC_ERROR := status.land STATUS_BIT_ADC_ERROR != 0
     PID_EXHAUST := status.land STATUS_BIT_PID_EXHAUST != 0
     OVER_PRESSURE_LIMIT := status.land STATUS_BIT_OVER_PRESSURE_LIMIT != 0
     FLOW_OVERFLOW_DURING_TOTALIZE := status.land STATUS_BIT_FLOW_OVERFLOW_DURING_TOTALIZE != 0
     MEASUREMENT_ABORTED := status.land STATUS_BIT_MEASUREMENT_ABORTED != 0
     ANY_ERROR := status > 0 }, r.2)

/-- getFlowTemperature (.cpp lines 322-334): mass-flow or liquid only,
statistic 2. -/
def getFlowTemperature (dev : Device) (bus : Bus) (junkAddr : Int) (flowTemperature : Nat) :
    Nat × List TransportCall :=
  if !deviceIsMassFlow dev && !deviceIsLiquid dev then (flowTemperature, [])
  else readRegistersAsFloat dev bus (getDeviceStatisticRegisterAddress 2 junkAddr).1 flowTemperature

/-- getVolumetricFlow (.cpp lines 338-350): mass-flow or liquid only,
statistic 3. -/
def getVolumetricFlow (dev : Device) (bus : Bus) (junkAddr : Int) (volumetricFlow : Nat) :
    Nat × List TransportCall :=
  if !deviceIsMassFlow dev && !deviceIsLiquid dev then (volumetricFlow, [])
  else readRegistersAsFloat dev bus (getDeviceStatisticRegisterAddress 3 junkAddr).1 volumetricFlow

/-- getMassFlow (.cpp lines 354-366): mass-flow only, statistic 4. -/
def getMassFlow (dev : Device) (bus : Bus) (junkAddr : Int) (massFlow : Nat) :
    Nat × List TransportCall :=
  if !deviceIsMassFlow dev then (massFlow, [])
  else readRegistersAsFloat dev bus (getDeviceStatisticRegisterAddress 4 junkAddr).1 massFlow

/-- getMassTotal (.cpp lines 370-386): mass-flow only; statistic 6 on
controllers, else 5. -/
def getMassTotal (dev : Device) (bus : Bus) (junkAddr : Int) (massTotal : Nat) :
    Nat × List TransportCall :=
  if !deviceIsMassFlow dev then (massTotal, [])
  else
    let registerAddress :=
      if deviceIsController dev then (getDeviceStatisticRegisterAddress 6 junkAddr).1
      else (getDeviceStatisticRegisterAddress 5 junkAddr).1
    readRegistersAsFloat dev bus registerAddress massTotal

/-- The eight outcomes of the special-command status switch
(.cpp lines 406-436), one per case label plus the default. -/
inductive SpecialCommandStatus where
  | success
  | invalidCommandId
  | invalidSetting
  | unsupportedFeature
  | invalidGasMixIndex
  | invalidGasMixConstituent
  | invalidGasMixPercentage
  | unknown
deriving DecidableEq, Repr

/-- Which case of the switch in handleSpecialCommandStatusCode
(.cpp lines 406-436) a status word selects. -/
def classifySpecialCommandStatus (status : Nat) : SpecialCommandStatus :=
  if status = STATUS_CODE_SUCCESS then .success
  else if status = STATUS_CODE_INVALID_COMMAND_ID then .invalidCommandId
  else if status = STATUS_CODE_INVALID_SETTING then .invalidSetting
  else if status = STATUS_CODE_REQUESTED_FEATURE_IS_UNSUPPORTED then .unsupportedFeature
  else if status = STATUS_CODE_INVALID_GAS_MIX_INDEX then .invalidGasMixIndex
  else if status = STATUS_CODE_INVALID_GAS_MIX_CONSTITUENT then .invalidGasMixConstituent
  else if status = STATUS_CODE_INVALID_GAS_MIX_PERCENTAGE then .invalidGasMixPercentage
  else .unknown

/-- handleSpecialCommandStatusCode (.cpp lines 406-436): only the
success case returns true; every other case (including the default)
falls through to `return false`. -/
def handleSpecialCommandStatusCode (status : Nat) : Bool :=
  match classifySpecialCommandStatus status with
  | .success => true
  | _ => false

/-- sendSpecialCommand (.cpp lines 393-402): writes {command, argument}
at the command-id register, reads the status back from the
command-argument register (the local `status` starts indeterminate,
`junkStatus`), and returns the classification of that status. -/
def sendSpecialCommand (dev : Device) (bus : Bus) (command argument : Nat)
    (junkStatus : Nat) : Bool × List TransportCall :=
  let wtrace : List TransportCall :=
    [.write dev.modbusID (offsetRegister dev REGISTER_COMMAND_ID) [command, argument]]
  let r := readSingleRegister dev bus REGISTER_COMMAND_ARGUMENT junkStatus
  (handleSpecialCommandStatusCode r.1, wtrace ++ r.2)

/-- readPIDValue (.cpp lines 440-456): controllers only, coefficient id
in [0,2] (a uint16, so the C check `< 0` can never fire); sends the
read-PID special command, DISCARDS its boolean result, then copies the
command-argument register into the output unconditionally. -/
def readPIDValue (dev : Device) (bus : Bus) (coefficientID : Nat)
    (coefficientValue : Nat) (junkStatus : Nat) : Nat × List TransportCall :=
  if !deviceIsController dev then (coefficientValue, [])
  else if coefficientID > 2 then (coefficientValue, [])
  else
    let r1 := sendSpecialCommand dev bus SPECIAL_COMMAND_READ_PID_VALUE coefficientID junkStatus
    let r2 := readSingleRegister dev bus REGISTER_COMMAND_ARGUMENT coefficientValue
    (r2.1, r1.2 ++ r2.2)

/-- changeGasNumber (.cpp lines 460-468): mass-flow only. -/
def changeGasNumber (dev : Device) (bus : Bus) (gasTableIndex : Nat) (junkStatus : Nat) :
    List TransportCall :=
  if !deviceIsMassFlow dev then []
  else (sendSpecialCommand dev bus SPECIAL_COMMAND_CHANGE_GAS_NUMBER gasTableIndex junkStatus).2

/-- createCustomGasMixture (.cpp lines 472-486): mass-flow only; the
mixture index must be 0 or in [236,255]. -/
def createCustomGasMixture (dev : Device) (bus : Bus) (gasMixtureIndex : Nat)
    (junkStatus : Nat) : List TransportCall :=
  if !deviceIsMassFlow dev then []
  else if gasMixtureIndex ≠ 0 && (gasMixtureIndex < 236 || gasMixtureIndex > 255) then []
  else (sendSpecialCommand dev bus SPECIAL_COMMAND_CREATE_CUSTOM_GAS_MIXTURE gasMixtureIndex junkStatus).2

/-- deleteCustomGasMixture (.cpp lines 490-498): mass-flow only. -/
def deleteCustomGasMixture (dev : Device) (bus : Bus) (gasMixtureIndex : Nat)
    (junkStatus : Nat) : List TransportCall :=
  if !deviceIsMassFlow dev then []
  else (sendSpecialCommand dev bus SPECIAL_COMMAND_DELETE_CUSTOM_GAS_MIXTURE gasMixtureIndex junkStatus).2

/-- The argument-dependent capability gate of tare (.cpp lines 502-518):
arguments 0 and 1 require a pressure controller, 2 requires mass-flow
or liquid, anything else never proceeds. -/
def tareProceed (dev : Device) (tareArgument : Nat) : Bool :=
  match tareArgument with
  | 0 => deviceIsPressureController dev
  | 1 => deviceIsPressureController dev
  | 2 => deviceIsMassFlow dev || deviceIsLiquid dev
  | _ => false

/-- tare (.cpp lines 502-532): issues the tare special command only
when the argument-dependent gate allows it. -/
def tare (dev : Device) (bus : Bus) (tareArgument : Nat) (junkStatus : Nat) :
    List TransportCall :=
  if !tareProceed dev tareArgument then []
  else (sendSpecialCommand dev bus SPECIAL_COMMAND_TARE tareArgument junkStatus).2

/-- A mass-flow controller device with the default register offset −1,
used as a concrete evaluation point. -/
def devMFC : Device := ⟨1, DEVICE_TYPE_MASS_FLOW_CONTROLLER, -1⟩

/-- A liquid-controller device (not a controller in the sense of
deviceIsController), default offset. -/
def devLiquid : Device := ⟨1, DEVICE_TYPE_LIQUID_CONTROLLER, -1⟩

/-- A PSID pressure-controller device, default offset. -/
def devPSID : Device := ⟨1, DEVICE_TYPE_PSID_CONTROLLER, -1⟩

/-- Helper: what a single-register read returns over a map-backed bus. -/
theorem readSingleRegister_busOfMap (dev : Device) (m : Int → Nat) (a : Int) (old : Nat) :
    readSingleRegister dev (busOfMap m) a old =
      (m (offsetRegister dev a), [.read dev.modbusID (offsetRegister dev a) 1]) := by
  have h1 : List.range 1 = [0] := rfl
  simp [readSingleRegister, busOfMap, h1]

/-- Claim C4: writeRegistersAsFloat emits the float pattern's high 16
bits as the first register word and its low 16 bits as the second, both
words fit in 16 bits, and readRegistersAsFloat reassembles two words
received in that high-then-low order back into the original 32-bit
value (round-trip law). -/
theorem float_roundtrip (dev : Device) (f : Nat) (h : f < 4294967296) (addr : Int) (old : Nat) :
    writeRegistersAsFloat dev addr f =
      [TransportCall.write dev.modbusID (offsetRegister dev addr) [f / 65536, f % 65536]] ∧
    f / 65536 < 65536 ∧ f % 65536 < 65536 ∧
    (readRegistersAsFloat dev (busConst [f / 65536, f % 65536]) addr old).1 = f := by
  refine ⟨?_, by omega, by omega, ?_⟩
  · simp [writeRegistersAsFloat]
    omega
  · simp [readRegistersAsFloat, busConst]
    omega

/-- Claim C5: offsetRegister(a) = a + registerOffset, and every
transport call issued by readSingleRegister, readRegistersAsFloat,
writeRegistersAsFloat, writeSingleRegister and sendSpecialCommand
carries the offset-corrected address of its documented register, never
the raw one. -/
theorem transport_addresses_offset_corrected (dev : Device) (bus : Bus) (a : Int)
    (v old f cmd arg junk : Nat) :
    offsetRegister dev a = a + dev.registerOffset ∧
    (readSingleRegister dev bus a old).2.map TransportCall.addr = [offsetRegister dev a] ∧
    (readRegistersAsFloat dev bus a old).2.map TransportCall.addr = [offsetRegister dev a] ∧
    (writeRegistersAsFloat dev a f).map TransportCall.addr = [offsetRegister dev a] ∧
    (writeSingleRegister dev a v).map TransportCall.addr = [offsetRegister dev a] ∧
    (sendSpecialCommand dev bus cmd arg junk).2.map TransportCall.addr =
      [offsetRegister dev REGISTER_COMMAND_ID, offsetRegister dev REGISTER_COMMAND_ARGUMENT] := by
  refine ⟨rfl, ?_, ?_, rfl, rfl, ?_⟩
  · unfold readSingleRegister
    rcases hb : bus.read dev.modbusID (offsetRegister dev a) 1 with _ | r <;>
      simp [hb, TransportCall.addr]
  · unfold readRegistersAsFloat
    rcases hb : bus.read dev.modbusID (offsetRegister dev a) 2 with _ | r <;>
      simp [hb, TransportCall.addr]
  · unfold sendSpecialCommand readSingleRegister
    rcases hb : bus.read dev.modbusID (offsetRegister dev REGISTER_COMMAND_ARGUMENT) 1 with _ | r <;>
      simp [hb, TransportCall.addr]

/-- Claim C7: getDeviceStatisticRegisterAddress writes
REGISTER_DEVICE_STATISTIC_1_VALUE + 2*(i-1) for every index i in
[1,20] (1203 at i = 1, 1203 + 38 at i = 20); outside that range it
leaves the output location unchanged, and it never issues a transport
call. -/
theorem statistic_register_address (i old : Int) :
    (1 ≤ i → i ≤ 20 →
      getDeviceStatisticRegisterAddress i old =
        (REGISTER_DEVICE_STATISTIC_1_VALUE + 2 * (i - 1), [])) ∧
    (i < 1 ∨ 20 < i → getDeviceStatisticRegisterAddress i old = (old, [])) ∧
    getDeviceStatisticRegisterAddress 1 old = (1203, []) ∧
    getDeviceStatisticRegisterAddress 20 old = (1203 + 38, []) := by
  unfold getDeviceStatisticRegisterAddress
  refine ⟨?_, ?_, by norm_num [REGISTER_DEVICE_STATISTIC_1_VALUE], by norm_num [REGISTER_DEVICE_STATISTIC_1_VALUE]⟩
  · intro h1 h2
    rw [if_neg]
    simp
    omega
  · intro h
    rw [if_pos]
    simp
    omega

/-- Claim C8: after getStatusFlags reads raw word w from the device
status register, each of the 14 named flags is true iff the
corresponding documented bit constant is set in w, ANY_ERROR is true
iff w is nonzero, and w = 0 yields all 15 flags false. -/
theorem status_flags_decode (dev : Device) (m : Int → Nat) (junk : Nat) :
    ((getStatusFlags dev (busOfMap m) junk).1.TEMPERATURE_OVERFLOW = true ↔
      (m (offsetRegister dev REGISTER_DEVICE_STATUS)).land STATUS_BIT_TEMPERATURE_OVERFLOW ≠ 0) ∧
    ((getStatusFlags dev (busOfMap m) junk).1.TEMPERATURE_UNDERFLOW = true ↔
      (m (offsetRegister dev REGISTER_DEVICE_STATUS)).land STATUS_BIT_TEMPERATURE_UNDERFLOW ≠ 0) ∧
    ((getStatusFlags dev (busOfMap m) junk).1.VOLUMETRIC_OVERFLOW = true ↔
      (m (offsetRegister dev REGISTER_DEVICE_STATUS)).land STATUS_BIT_VOLUMETRIC_OVERFLOW ≠ 0) ∧
    ((getStatusFlags dev (busOfMap m) junk).1.VOLUMETRIC_UNDERFLOW = true ↔
      (m (offsetRegister dev REGISTER_DEVICE_STATUS)).land STATUS_BIT_VOLUMETRIC_UNDERFLOW ≠ 0) ∧
    ((getStatusFlags dev (busOfMap m) junk).1.MASS_OVERFLOW = true ↔
      (m (offsetRegister dev REGISTER_DEVICE_STATUS)).land STATUS_BIT_MASS_OVERFLOW ≠ 0) ∧
    ((getStatusFlags dev (busOfMap m) junk).1.MASS_UNDERFLOW = true ↔
      (m (offsetRegister dev REGISTER_DEVICE_STATUS)).land STATUS_BIT_MASS_UNDERFLOW ≠ 0) ∧
    ((getStatusFlags dev (busOfMap m) junk).1.PRESSURE_OVERFLOW = true ↔
      (m (offsetRegister dev REGISTER_DEVICE_STATUS)).land STATUS_BIT_PRESSURE_OVERFLOW ≠ 0) ∧
    ((getStatusFlags dev (busOfMap m) junk).1.TOTALIZER_OVERFLOW = true ↔
      (m (offsetRegister dev REGISTER_DEVICE_STATUS)).land STATUS_BIT_TOTALIZER_OVERFLOW ≠ 0) ∧
    ((getStatusFlags dev (busOfMap m) junk).1.PID_LOOP_IN_HOLD = true ↔
      (m (offsetRegister dev REGISTER_DEVICE_STATUS)).land STATUS_BIT_PID_LOOP_IN_HOLD ≠ 0) ∧
    ((getStatusFlags dev (busOfMap m) junk).1.ADC_ERROR = true ↔
      (m (offsetRegister dev REGISTER_DEVICE_STATUS)).land STATUS_BIT_ADC_ERROR ≠ 0) ∧
    ((getStatusFlags dev (busOfMap m) junk).1.PID_EXHAUST = true ↔
      (m (offsetRegister dev REGISTER_DEVICE_STATUS)).land STATUS_BIT_PID_EXHAUST ≠ 0) ∧
    ((getStatusFlags dev (busOfMap m) junk).1.OVER_PRESSURE_LIMIT = true ↔
      (m (offsetRegister dev REGISTER_DEVICE_STATUS)).land STATUS_BIT_OVER_PRESSURE_LIMIT ≠ 0) ∧
    ((getStatusFlags dev (busOfMap m) junk).1.FLOW_OVERFLOW_DURING_TOTALIZE = true ↔
      (m (offsetRegister dev REGISTER_DEVICE_STATUS)).land STATUS_BIT_FLOW_OVERFLOW_DURING_TOTALIZE ≠ 0) ∧
    ((getStatusFlags dev (busOfMap m) junk).1.MEASUREMENT_ABORTED = true ↔
      (m (offsetRegister dev REGISTER_DEVICE_STATUS)).land STATUS_BIT_MEASUREMENT_ABORTED ≠ 0) ∧
    ((getStatusFlags dev (busOfMap m) junk).1.ANY_ERROR = true ↔
      m (offsetRegister dev REGISTER_DEVICE_STATUS) ≠ 0) ∧
    (getStatusFlags dev (busOfMap (fun _ => 0)) junk).1 =
      ⟨false, false, false, false, false, false, false, false, false, false, false, false,
        false, false, false⟩ := by
  have h0 : (getStatusFlags dev (busOfMap (fun _ => 0)) junk).1 =
      ⟨false, false, false, false, false, false, false, false, false, false, false, false,
        false, false, false⟩ := by
    simp [getStatusFlags, readSingleRegister_busOfMap]
    decide
  refine ⟨?_, ?_, ?_, ?_, ?_, ?_, ?_, ?_, ?_, ?_, ?_, ?_, ?_, ?_, ?_, h0⟩ <;>
    simp [getStatusFlags, readSingleRegister_busOfMap, Nat.pos_iff_ne_zero]

/-- Claim C1: every type-restricted semantic operation whose
capability predicate (for tare, the argument-dependent gate) rejects
the device performs zero transport calls: its trace is empty. -/
theorem capability_gating (dev : Device) (bus : Bus) :
    (deviceIsController dev = false →
      (∀ v, setSetpoint dev v = []) ∧
      (∀ j old, (getSetpoint dev bus j old).2 = []) ∧
      (∀ c old j, (readPIDValue dev bus c old j).2 = [])) ∧
    (deviceIsMassFlow dev = false →
      (∀ j old, (getMassFlow dev bus j old).2 = []) ∧
      (∀ j old, (getMassTotal dev bus j old).2 = []) ∧
      (∀ old, (getGasNumber dev bus old).2 = []) ∧
      (∀ g, setGasNumber dev g = []) ∧
      (∀ mi g p, setMixtureGasProperties dev mi g p = []) ∧
      (∀ mi gi gp j, (getMixtureGasProperties dev bus mi gi gp j).2 = []) ∧
      (∀ g j, changeGasNumber dev bus g j = []) ∧
      (∀ g j, createCustomGasMixture dev bus g j = []) ∧
      (∀ g j, deleteCustomGasMixture dev bus g j = [])) ∧
    (deviceIsMassFlow dev = false → deviceIsLiquid dev = false →
      (∀ j old, (getFlowTemperature dev bus j old).2 = []) ∧
      (∀ j old, (getVolumetricFlow dev bus j old).2 = [])) ∧
    (∀ a, tareProceed dev a = false → ∀ j, tare dev bus a j = []) := by
  refine ⟨fun h => ⟨fun v => ?_, fun j old => ?_, fun c old j => ?_⟩,
    fun h => ⟨fun j old => ?_, fun j old => ?_, fun old => ?_, fun g => ?_,
      fun mi g p => ?_, fun mi gi gp j => ?_, fun g j => ?_, fun g j => ?_, fun g j => ?_⟩,
    fun h1 h2 => ⟨fun j old => ?_, fun j old => ?_⟩,
    fun a ha j => ?_⟩ <;>
  simp_all [setSetpoint, getSetpoint, readPIDValue, getMassFlow, getMassTotal,
    getGasNumber, setGasNumber, setMixtureGasProperties, getMixtureGasProperties,
    changeGasNumber, createCustomGasMixture, deleteCustomGasMixture,
    getFlowTemperature, getVolumetricFlow, tare]

/-- Helper: the status switch returns true exactly on status 0. -/
theorem handle_status_true_iff (s : Nat) :
    handleSpecialCommandStatusCode s = true ↔ s = STATUS_CODE_SUCCESS := by
  unfold handleSpecialCommandStatusCode classifySpecialCommandStatus
  split_ifs with h1 h2 h3 h4 h5 h6 h7 <;> simp_all

/-- Claim C6: sendSpecialCommand returns true iff the status code
read back from the command-argument register is 0; code 32769 is
classified invalid-command-id with result false; any code outside the
seven known codes is classified unknown with result false. -/
theorem special_command_status (dev : Device) (m : Int → Nat) (cmd arg junk s : Nat)
    (hs : s ∉ ([0, 32769, 32770, 32771, 32772, 32773, 32774] : List Nat)) :
    ((sendSpecialCommand dev (busOfMap m) cmd arg junk).1 = true ↔
      m (offsetRegister dev REGISTER_COMMAND_ARGUMENT) = STATUS_CODE_SUCCESS) ∧
    classifySpecialCommandStatus STATUS_CODE_INVALID_COMMAND_ID =
      SpecialCommandStatus.invalidCommandId ∧
    handleSpecialCommandStatusCode STATUS_CODE_INVALID_COMMAND_ID = false ∧
    classifySpecialCommandStatus s = SpecialCommandStatus.unknown ∧
    handleSpecialCommandStatusCode s = false := by
  simp only [List.mem_cons, List.not_mem_nil, or_false, not_or] at hs
  obtain ⟨h0, h1, h2, h3, h4, h5, h6⟩ := hs
  have hcl : classifySpecialCommandStatus s = SpecialCommandStatus.unknown := by
    unfold classifySpecialCommandStatus
    simp [STATUS_CODE_SUCCESS, STATUS_CODE_INVALID_COMMAND_ID, STATUS_CODE_INVALID_SETTING,
      STATUS_CODE_REQUESTED_FEATURE_IS_UNSUPPORTED, STATUS_CODE_INVALID_GAS_MIX_INDEX,
      STATUS_CODE_INVALID_GAS_MIX_CONSTITUENT, STATUS_CODE_INVALID_GAS_MIX_PERCENTAGE,
      h0, h1, h2, h3, h4, h5, h6]
  refine ⟨?_, by decide, by decide, hcl, ?_⟩
  · simp [sendSpecialCommand, readSingleRegister_busOfMap, handle_status_true_iff]
  · unfold handleSpecialCommandStatusCode
    rw [hcl]

/-- Claim C9: for every device on which deviceIsController holds,
exactly one of getSetpoint's two address-resolving branches applies
(deviceIsMassFlow, or else deviceIsPressureController), so the branch
that would leave the register address unresolved is unreachable: the
result never depends on the indeterminate initial address. -/
theorem getSetpoint_branch_coverage (dev : Device) (h : deviceIsController dev = true) :
    (deviceIsMassFlow dev = true ∨
      (deviceIsMassFlow dev = false ∧ deviceIsPressureController dev = true)) ∧
    (∀ bus j1 j2 old, getSetpoint dev bus j1 old = getSetpoint dev bus j2 old) := by
  obtain ⟨mid, ty, off⟩ := dev
  have hd : ty = 0 ∨ ty = 3 ∨ ty = 4 := by
    simp [deviceIsController, DEVICE_TYPE_PSID_CONTROLLER,
      DEVICE_TYPE_GAUGE_PRESSURE_CONTROLLER, DEVICE_TYPE_MASS_FLOW_CONTROLLER] at h
    tauto
  rcases hd with h0 | h3 | h4 <;> subst_vars <;>
    exact ⟨by simp [deviceIsMassFlow, deviceIsPressureController, DEVICE_TYPE_MASS_FLOW_METER,
        DEVICE_TYPE_MASS_FLOW_CONTROLLER, DEVICE_TYPE_PSID_CONTROLLER,
        DEVICE_TYPE_GAUGE_PRESSURE_CONTROLLER],
      fun bus j1 j2 old => rfl⟩

/-- Claim C10: on a controller with a coefficient id in [0,2], when
the transport succeeds, readPIDValue copies the command-argument
register into its output unconditionally, and the boolean produced by
sendSpecialCommand for the very same register contents is discarded —
a non-success status code lands in the output. -/
theorem readPIDValue_output_unconditional (dev : Device) (h : deviceIsController dev = true)
    (c : Nat) (hc : c ≤ 2) (m : Int → Nat) (old junk : Nat) :
    (readPIDValue dev (busOfMap m) c old junk).1 =
      m (offsetRegister dev REGISTER_COMMAND_ARGUMENT) ∧
    (sendSpecialCommand dev (busOfMap m) SPECIAL_COMMAND_READ_PID_VALUE c junk).1 =
      handleSpecialCommandStatusCode (m (offsetRegister dev REGISTER_COMMAND_ARGUMENT)) := by
  have hc2 : ¬ c > 2 := by omega
  constructor
  · simp [readPIDValue, h, hc2, readSingleRegister_busOfMap]
  · simp [sendSpecialCommand, readSingleRegister_busOfMap]

/-- Claim C2 (counterexample at mixtureIndex = 2): the setter writes
the gas index at BASE+2 and the percent at BASE+3 (after offset), but
the getter reads BASE+1 and BASE+2, so reading back after
setMixtureGasProperties(2, 7, 50) over write-through register memory
returns gas index 0, not the written 7. -/
theorem mixture_setGet_register_mismatch :
    (setMixtureGasProperties devMFC 2 7 50).map TransportCall.addr =
      [offsetRegister devMFC (REGISTER_MIXTURE_GAS_1_INDEX + 2),
       offsetRegister devMFC (REGISTER_MIXTURE_GAS_1_INDEX + 3)] ∧
    (getMixtureGasProperties devMFC failBus 2 0 0 0).2.map TransportCall.addr =
      [offsetRegister devMFC (REGISTER_MIXTURE_GAS_1_INDEX + 1),
       offsetRegister devMFC (REGISTER_MIXTURE_GAS_1_INDEX + 2)] ∧
    (getMixtureGasProperties devMFC
        (busOfMap (applyTrace (fun _ => 0) (setMixtureGasProperties devMFC 2 7 50)))
        2 0 0 0).1.1 = 0 ∧
    (0 : Nat) ≠ 7 :=
  ⟨by decide, by decide, by decide, by decide⟩

/-- Claim C3 (failing case): the primitive reads do leave their
outputs unmodified when the transport fails, but getMixtureGasProperties
on an always-failing bus still overwrites its gasPercent output (7
becomes the indeterminate local over 100, here 0) while gasIndex is
left unmodified. -/
theorem getMixture_percent_written_on_failure :
    (readSingleRegister devMFC failBus 1050 5).1 = 5 ∧
    (readRegistersAsFloat devMFC failBus 1203 9).1 = 9 ∧
    (getMixtureGasProperties devMFC failBus 1 5 7 0).1.1 = 5 ∧
    (getMixtureGasProperties devMFC failBus 1 5 7 0).1.2 = 0 ∧
    (0 : Rat) ≠ 7 := by
  refine ⟨by decide, by decide, by decide, ?_, by norm_num⟩
  norm_num [getMixtureGasProperties, readSingleRegister, failBus, deviceIsMassFlow, devMFC,
    DEVICE_TYPE_MASS_FLOW_METER, DEVICE_TYPE_MASS_FLOW_CONTROLLER]

/-- Witness for claim C1 at concrete device types. -/
theorem capability_gating_witness :
    deviceIsController devLiquid = false ∧
    deviceIsMassFlow devPSID = false ∧
    deviceIsLiquid devPSID = false ∧
    tareProceed devMFC 0 = false ∧
    setSetpoint devLiquid 1 = [] ∧
    (getSetpoint devLiquid failBus 0 0).2 = [] ∧
    (readPIDValue devLiquid failBus 1 0 0).2 = [] ∧
    (getMassFlow devPSID failBus 0 0).2 = [] ∧
    (getMassTotal devPSID failBus 0 0).2 = [] ∧
    (getGasNumber devPSID failBus 0).2 = [] ∧
    setGasNumber devPSID 3 = [] ∧
    setMixtureGasProperties devPSID 1 3 50 = [] ∧
    (getMixtureGasProperties devPSID failBus 1 0 0 0).2 = [] ∧
    changeGasNumber devPSID failBus 3 0 = [] ∧
    createCustomGasMixture devPSID failBus 0 0 = [] ∧
    deleteCustomGasMixture devPSID failBus 0 0 = [] ∧
    (getFlowTemperature devPSID failBus 0 0).2 = [] ∧
    (getVolumetricFlow devPSID failBus 0 0).2 = [] ∧
    tare devMFC failBus 0 0 = [] := by
  have hL := (capability_gating devLiquid failBus).1 (by decide)
  have hP := (capability_gating devPSID failBus).2.1 (by decide)
  have hFL := (capability_gating devPSID failBus).2.2.1 (by decide) (by decide)
  have hT := (capability_gating devMFC failBus).2.2.2 0 (by decide) 0
  exact ⟨by decide, by decide, by decide, by decide,
    hL.1 1, hL.2.1 0 0, hL.2.2 1 0 0,
    hP.1 0 0, hP.2.1 0 0, hP.2.2.1 0, hP.2.2.2.1 3,
    hP.2.2.2.2.1 1 3 50, hP.2.2.2.2.2.1 1 0 0 0,
    hP.2.2.2.2.2.2.1 3 0, hP.2.2.2.2.2.2.2.1 0 0, hP.2.2.2.2.2.2.2.2 0 0,
    hFL.1 0 0, hFL.2 0 0, hT⟩

/-- Witness for claim C4 at the pattern 0x12345678. -/
theorem float_roundtrip_witness :
    305419896 < 4294967296 ∧
    (writeRegistersAsFloat devMFC 1010 305419896 =
      [TransportCall.write devMFC.modbusID (offsetRegister devMFC 1010)
        [305419896 / 65536, 305419896 % 65536]] ∧
     305419896 / 65536 < 65536 ∧ 305419896 % 65536 < 65536 ∧
     (readRegistersAsFloat devMFC
        (busConst [305419896 / 65536, 305419896 % 65536]) 1010 0).1 = 305419896) :=
  ⟨by norm_num, float_roundtrip devMFC 305419896 (by norm_num) 1010 0⟩

/-- Witness for claim C7 at indices 5 (in range) and 0 (out of range). -/
theorem statistic_register_address_witness :
    ((1 : Int) ≤ 5 ∧ (5 : Int) ≤ 20 ∧
      getDeviceStatisticRegisterAddress 5 7 =
        (REGISTER_DEVICE_STATISTIC_1_VALUE + 2 * (5 - 1), [])) ∧
    ((0 : Int) < 1 ∧ getDeviceStatisticRegisterAddress 0 7 = (7, [])) :=
  ⟨⟨by norm_num, by norm_num,
      (statistic_register_address 5 7).1 (by norm_num) (by norm_num)⟩,
    ⟨by norm_num, (statistic_register_address 0 7).2.1 (Or.inl (by norm_num))⟩⟩

/-- Witness for claim C6 with status 0 on the bus and unknown code 99999. -/
theorem special_command_status_witness :
    (99999 : Nat) ∉ ([0, 32769, 32770, 32771, 32772, 32773, 32774] : List Nat) ∧
    (((sendSpecialCommand devMFC (busOfMap (fun _ => 0)) 4 0 0).1 = true ↔
        (0 : Nat) = STATUS_CODE_SUCCESS) ∧
      classifySpecialCommandStatus STATUS_CODE_INVALID_COMMAND_ID =
        SpecialCommandStatus.invalidCommandId ∧
      handleSpecialCommandStatusCode STATUS_CODE_INVALID_COMMAND_ID = false ∧
      classifySpecialCommandStatus 99999 = SpecialCommandStatus.unknown ∧
      handleSpecialCommandStatusCode 99999 = false) :=
  ⟨by decide, special_command_status devMFC (fun _ => 0) 4 0 0 99999 (by decide)⟩

/-- Witness for claim C9 on a mass-flow controller. -/
theorem getSetpoint_branch_coverage_witness :
    deviceIsController devMFC = true ∧
    (deviceIsMassFlow devMFC = true ∨
      (deviceIsMassFlow devMFC = false ∧ deviceIsPressureController devMFC = true)) ∧
    getSetpoint devMFC failBus 0 0 = getSetpoint devMFC failBus 5 0 :=
  ⟨by decide, (getSetpoint_branch_coverage devMFC (by decide)).1,
    (getSetpoint_branch_coverage devMFC (by decide)).2 failBus 0 5 0⟩

/-- Witness for claim C10 with device-reported status code 32770. -/
theorem readPIDValue_output_unconditional_witness :
    deviceIsController devMFC = true ∧ (1 : Nat) ≤ 2 ∧
    handleSpecialCommandStatusCode 32770 = false ∧
    ((readPIDValue devMFC (busOfMap (fun _ => 32770)) 1 0 0).1 = 32770 ∧
      (sendSpecialCommand devMFC (busOfMap (fun _ => 32770))
          SPECIAL_COMMAND_READ_PID_VALUE 1 0).1 =
        handleSpecialCommandStatusCode 32770) :=
  ⟨by decide, by decide, by decide,
    readPIDValue_output_unconditional devMFC (by decide) 1 (by decide) (fun _ => 32770) 0 0⟩

end AlicatModbusRTU
